import Mathlib

/-!
Shallow embedding of `lca_bot_ai_web_scraper_safe.py`, a single-file
Streamlit application that generates a mock life-cycle-assessment (LCA)
report.  Python floats are embedded as exact rationals, the pandas
`DataFrame` as a list of named columns, the docx `Document` as a list of
blocks, and the two network dependencies (the search page and the
chat-completion endpoint) as explicit function parameters.  Side effects
(file writes, plotting) are modelled by the values the code computes for
them: chart file names, document block lists, the output file name and
the outbound request data.
-/

/-- A cell of the pandas DataFrame: either a string label or a numeric
value (Python floats embedded as exact rationals). -/
inductive CellVal where
  | str : String → CellVal
  | num : ℚ → CellVal
deriving DecidableEq

/-- `true` on numeric cells. -/
def CellVal.isNum : CellVal → Bool
  | .num _ => true
  | .str _ => false

/-- The pandas DataFrame of `generate_lci_data`: an ordered list of
named columns (`pd.DataFrame` built from a dict keeps insertion order). -/
structure DataFrame where
  cols : List (String × List CellVal)
deriving DecidableEq

/-- Number of rows: the length of the first column (a real DataFrame has
all columns of equal length, see `DataFrame.wfB`). -/
def DataFrame.nRows (df : DataFrame) : Nat :=
  match df.cols with
  | [] => 0
  | c :: _ => c.2.length

/-- Well-formedness: every column has the common row count (pandas
rejects ragged dict input, so every real DataFrame satisfies this). -/
def DataFrame.wfB (df : DataFrame) : Bool :=
  df.cols.all (fun c => c.2.length == df.nRows)

/-- Cell at row `i` of column index `j` (column order of the dict). -/
def dfCell (df : DataFrame) (i j : Nat) : Option CellVal :=
  (df.cols.get? j).bind (fun c => c.2.get? i)

/-- Row `i` as `df.iterrows` yields it: the cells of every column in
column order. -/
def DataFrame.rowAt (df : DataFrame) (i : Nat) : List CellVal :=
  df.cols.map (fun c => c.2.getD i (CellVal.str ""))

/-- All rows in index order, as `df.iterrows` enumerates them. -/
def dfRows (df : DataFrame) : List (List CellVal) :=
  (List.range df.nRows).map df.rowAt

/-- Columns all of whose cells are numeric. -/
def numericCols (df : DataFrame) : List (String × List CellVal) :=
  df.cols.filter (fun c => c.2.all CellVal.isNum)

/-- Semantics of Python `random.uniform a b`: `a + (b-a)*u` for a unit
sample `u` drawn from the interval `0..1`. -/
def uniform (a b u : ℚ) : ℚ := a + (b - a) * u

/-- `generate_lci_data` (source lines 22-28): a fresh DataFrame with the
four fixed life-cycle stages and three numeric metric columns, each cell
drawn by `random.uniform` with the per-cell bounds of the source.  The
random source is made explicit: `u n` is the `n`-th unit sample the
Python `random` module would produce, consumed in evaluation order. -/
def generate_lci_data (u : Nat → ℚ) : DataFrame :=
  { cols := [
      ("Life Cycle Stage",
        [CellVal.str "Materials", CellVal.str "Manufacturing",
         CellVal.str "Use Phase", CellVal.str "End-of-Life"]),
      ("Energy Use (MJ)",
        [CellVal.num (uniform 80 120 (u 0)), CellVal.num (uniform 50 100 (u 1)),
         CellVal.num (uniform 10 20 (u 2)), CellVal.num (uniform 15 30 (u 3))]),
      ("GHG Emissions (kg CO2-eq)",
        [CellVal.num (uniform 5 10 (u 4)), CellVal.num (uniform 8 12 (u 5)),
         CellVal.num (uniform 1 3 (u 6)), CellVal.num (uniform 2 4 (u 7))]),
      ("Water Use (L)",
        [CellVal.num (uniform 20 40 (u 8)), CellVal.num (uniform 10 30 (u 9)),
         CellVal.num (uniform 1 5 (u 10)), CellVal.num (uniform 5 15 (u 11))])] }

/-- The smallest interval containing all of a column's per-cell draw
ranges in `generate_lci_data` — the column's fixed range. -/
def columnRange : String → ℚ × ℚ
  | "Energy Use (MJ)" => (10, 120)
  | "GHG Emissions (kg CO2-eq)" => (1, 12)
  | "Water Use (L)" => (1, 40)
  | _ => (0, 0)

/-- Python `s.replace(a, b)` for one-character `a` and `b`: every
occurrence of the character is replaced. -/
def replaceChars (a b : Char) : List Char → List Char :=
  List.map (fun c => if c = a then b else c)

/-- Python `s.replace(a, b)` on strings, single-character pattern. -/
def pyReplaceChar (s : String) (a b : Char) : String :=
  ⟨replaceChars a b s.data⟩

/-- `create_visuals` (source lines 30-40): for every column after the
first (`df.columns[1:]`) it saves one bar chart to
`<column with spaces replaced by underscores>.png` and returns the list
of those file names in column order.  The plotting calls only draw into
the saved file; the value the function computes is this name list. -/
def create_visuals (df : DataFrame) : List String :=
  ((df.cols.map Prod.fst).drop 1).map
    (fun column => pyReplaceChar column ' ' '_' ++ ".png")

/-- `scrape_product_data`, request half (source lines 42-45): the query
is the product with spaces replaced by `+` plus the fixed suffix, pasted
into the fixed search URL template by string interpolation. -/
def scrapeQuery (product : String) : String :=
  pyReplaceChar product ' ' '+' ++ "+environmental+impact"

/-- The URL `scrape_product_data` issues its GET against (line 44). -/
def scrapeUrl (product : String) : String :=
  "https://www.google.com/search?q=" ++ scrapeQuery product

/-- The headers of the outbound GET (line 45). -/
def scrapeHeaders : List (String × String) := [("User-Agent", "Mozilla/5.0")]

/-- Python `s.strip()`: drop whitespace from both ends. -/
def pyStrip (s : String) : String :=
  ⟨(((s.data.dropWhile Char.isWhitespace).reverse).dropWhile Char.isWhitespace).reverse⟩

/-- `scrape_product_data`, response half (source lines 46-50): given the
visible texts of the `div` elements matching the fixed class signature
(`p.get_text()` for each match, in document order), join the first five
with single spaces and fall back to a placeholder when the join is blank
after stripping (`combined if combined.strip() else ...`). -/
def scrape_product_data (product : String) (paragraphTexts : List String) : String :=
  let combined := String.intercalate " " (paragraphTexts.take 5)
  if pyStrip combined ≠ "" then combined
  else "No public data found for " ++ product ++ "."

/-- A chat-completion request as `generate_ai_section` builds it
(source lines 56-63). -/
structure ChatRequest where
  model : String
  systemMsg : String
  userMsg : String
  temperature : ℚ
deriving DecidableEq

/-- The request `generate_ai_section` sends for a section `prompt` and a
`product` (source lines 56-63). -/
def chatRequest (prompt product : String) : ChatRequest :=
  { model := "gpt-4-turbo",
    systemMsg := "You are a sustainability analyst writing ISO-style LCA reports.",
    userMsg := "Write the \x27" ++ prompt ++ "\x27 section for a life cycle assessment of a "
      ++ product ++ ".",
    temperature := 7 / 10 }

/-- Outcome of one chat-completion call: the model text on success, or
an `openai.OpenAIError` carrying its message — the only exception class
the completion client raises at API level, and the one the source
catches (line 65). -/
inductive ApiResult where
  | success : String → ApiResult
  | apiError : String → ApiResult
deriving DecidableEq

/-- `generate_ai_section` (source lines 52-66).  `client` is the module
global of line 20 (`some key` when `OPENAI_API_KEY` is set, else
`none`); `api` is the completion endpoint, mapping the request to its
outcome.  The first component is the string the function returns; the
second is the list of chat-completion requests the call put on the
network.  The Python function always returns a string: the `none`
branch returns before any network use, and the `except` arm converts an
`OpenAIError` into the fallback text instead of re-raising. -/
def generate_ai_section (client : Option String) (api : ChatRequest → ApiResult)
    (prompt product : String) : String × List ChatRequest :=
  match client with
  | none =>
      ("[Fallback] This section would normally be generated using AI for: "
        ++ prompt ++ " on " ++ product ++ ".", [])
  | some _ =>
      let req := chatRequest prompt product
      match api req with
      | .success content => (content, [req])
      | .apiError e =>
          ("[Error or Quota Reached] " ++ prompt
            ++ " section fallback: AI generation failed due to: " ++ e, [req])

/-- A block of the docx `Document`, in document order: headings with
their level, paragraphs, the data table (cells kept as parsed values,
see `renderCell`), embedded pictures by file name, and page breaks. -/
inductive Block where
  | heading : String → Nat → Block
  | paragraph : String → Block
  | table : List (List CellVal) → Block
  | picture : String → Block
  | pageBreak : Block
deriving DecidableEq

/-- Round half to even at integer precision, as Python `round` ties. -/
def roundHalfEven (q : ℚ) : ℤ :=
  let f := ⌊q⌋
  let r := q - f
  if r < 1 / 2 then f
  else if r > 1 / 2 then f + 1
  else if f % 2 = 0 then f else f + 1

/-- Python `round(x, 2)`: round to the nearest multiple of `1/100`. -/
def round2 (q : ℚ) : ℚ := (roundHalfEven (q * 100) : ℚ) / 100

/-- One document-table cell (source line 105): numeric values are
written as `str(round(val, 2))`, strings as `str(val)`.  The cell text
is modelled by the value it prints. -/
def renderCell : CellVal → CellVal
  | .num q => .num (round2 q)
  | .str s => .str s

/-- The data table `create_report` builds (source lines 97-105): a
header row of the column names followed by one row per DataFrame row
with every cell rendered. -/
def docTableOf (df : DataFrame) : List (List CellVal) :=
  ((df.cols.map Prod.fst).map CellVal.str) :: (dfRows df).map (fun r => r.map renderCell)

/-- Python `d[k]` on a dict: the value when the key is present, else a
`KeyError` escaping the caller. -/
def dictGet (m : List (String × String)) (k : String) : Except String String :=
  match m.lookup k with
  | some v => Except.ok v
  | none => Except.error ("KeyError: " ++ k)

/-- The `for section in [...]` loops of `create_report` (lines 87-90 and
114-117): per section a heading, the paragraph looked up in
`ai_sections`, and a page break; a missing key raises out of the loop at
its lookup. -/
def sectionBlocks (ai : List (String × String)) : List String → Except String (List Block)
  | [] => Except.ok []
  | s :: rest => do
      let txt ← dictGet ai s
      let tail ← sectionBlocks ai rest
      pure ([Block.heading s 1, Block.paragraph txt, Block.pageBreak] ++ tail)

/-- Python `s.title()`: the first of each run of alphabetic characters
uppercased, the rest of the run lowercased. -/
def titleChars : List Char → Bool → List Char
  | [], _ => []
  | c :: rest, prevAlpha =>
      (if c.isAlpha then (if prevAlpha then c.toLower else c.toUpper) else c)
        :: titleChars rest c.isAlpha

/-- Python `s.title()` on strings. -/
def pyTitle (s : String) : String := ⟨titleChars s.data false⟩

/-- Python `s.split(sep)[0]` for a one-character separator: the prefix
before the first occurrence of `sep` (the whole string if absent). -/
def pySplitHead (s : String) (sep : Char) : String :=
  ⟨s.data.takeWhile (fun c => c ≠ sep)⟩

/-- The caption of one chart (source line 110):
`chart.split(".")[0].replace("_", " ").title()`. -/
def chartCaption (chart : String) : String :=
  pyTitle (pyReplaceChar (pySplitHead chart '.') '_' ' ')

/-- The thirteen table-of-contents entries (source lines 76-78). -/
def tocEntries : List String :=
  ["Executive Summary", "1. Introduction", "2. Goal and Scope", "3. Functional Unit",
   "4. System Boundary", "5. Web-Sourced Product Information", "6. Inventory Analysis",
   "7. LCIA with Charts", "8. Interpretation", "9. Limitations", "10. Recommendations",
   "Appendix A: Glossary", "Appendix B: References"]

/-- The four narrative sections of the first loop (source line 87). -/
def firstSections : List String :=
  ["1. Introduction", "2. Goal and Scope", "3. Functional Unit", "4. System Boundary"]

/-- The three narrative sections of the second loop (source line 114). -/
def lastSections : List String :=
  ["8. Interpretation", "9. Limitations", "10. Recommendations"]

/-- All keys `create_report` looks up in `ai_sections`, in lookup
order: the executive summary (line 84), then both loops. -/
def requiredSectionKeys : List String :=
  "Executive Summary" :: firstSections ++ lastSections

/-- The glossary paragraph (source line 120). -/
def glossaryText : String :=
  "LCA: Life Cycle Assessment\nGWP: Global Warming Potential\nMJ: Megajoules\nCO2-eq: Carbon dioxide equivalent"

/-- The references paragraph (source line 124). -/
def referencesText : String :=
  "1. ISO 14040/44\n2. Ecoinvent\n3. IPCC\n4. Manufacturer Reports\n5. Online product research"

/-- The output file name (source line 127). -/
def report_filename (product : String) : String :=
  "LCA_Report_AI_" ++ pyReplaceChar product ' ' '_' ++ ".docx"

/-- `create_report` (source lines 68-129).  `today` stands for
`datetime.date.today()` printed; the right-alignment of the
confidentiality paragraph is presentation only and not modelled.  The
result is the document block list together with the file name the
document is saved under and which the function returns; a `KeyError`
from an `ai_sections` lookup is the `Except.error` case.  Lookups
happen in document order (executive summary, sections 1-4, sections
8-10); everything between them is pure block building. -/
def create_report (product today : String) (df : DataFrame) (charts : List String)
    (web_data : String) (ai_sections : List (String × String)) :
    Except String (List Block × String) := do
  let execTxt ← dictGet ai_sections "Executive Summary"
  let sec1 ← sectionBlocks ai_sections firstSections
  let sec2 ← sectionBlocks ai_sections lastSections
  pure (
    [Block.heading ("LCA Report for: " ++ product) 0,
     Block.paragraph ("Date: " ++ today),
     Block.paragraph "Confidential – For Internal Use Only",
     Block.pageBreak,
     Block.heading "Table of Contents" 1] ++
    tocEntries.map Block.paragraph ++
    [Block.pageBreak,
     Block.heading "Executive Summary" 1, Block.paragraph execTxt, Block.pageBreak] ++
    sec1 ++
    [Block.heading "5. Web-Sourced Product Information" 1, Block.paragraph web_data,
     Block.pageBreak,
     Block.heading "6. Inventory Analysis" 1, Block.table (docTableOf df), Block.pageBreak,
     Block.heading "7. LCIA with Charts" 1] ++
    charts.flatMap (fun chart =>
      [Block.paragraph ("Figure: " ++ chartCaption chart), Block.picture chart]) ++
    [Block.pageBreak] ++
    sec2 ++
    [Block.heading "Appendix A: Glossary" 1, Block.paragraph glossaryText, Block.pageBreak,
     Block.heading "Appendix B: References" 1, Block.paragraph referencesText, Block.pageBreak],
    report_filename product)

/-- `true` exactly on the success case. -/
def exceptOk {α : Type} (r : Except String α) : Bool :=
  match r with
  | .ok _ => true
  | .error _ => false

/-- The blocks of a successful report (empty list on failure). -/
def reportBlocks (r : Except String (List Block × String)) : List Block :=
  match r with
  | .ok p => p.1
  | .error _ => []

/-- All data tables of a block list, in order. -/
def tablesOf (blocks : List Block) : List (List (List CellVal)) :=
  blocks.filterMap (fun b =>
    match b with
    | .table tb => some tb
    | _ => none)

/-- Cell `(r, c)` of the first data table of a block list. -/
def tableCells (blocks : List Block) (r c : Nat) : Option CellVal :=
  ((tablesOf blocks).head?).bind (fun tb => (tb.get? r).bind (fun row => row.get? c))

/-- The eight keys the Presentation Shell populates, in its loop order
(source lines 142-144). -/
def shellSectionKeys : List String :=
  ["Executive Summary", "1. Introduction", "2. Goal and Scope",
   "3. Functional Unit", "4. System Boundary", "8. Interpretation",
   "9. Limitations", "10. Recommendations"]

/-- The `ai_sections` mapping the Presentation Shell builds (source
lines 141-145): one entry per shell key, valued by
`generate_ai_section(section, product)`. -/
def pipelineSections (client : Option String) (api : ChatRequest → ApiResult)
    (product : String) : List (String × String) :=
  shellSectionKeys.map (fun s => (s, (generate_ai_section client api s product).1))

/-- The error message of a failed run (`none` on success). -/
def exceptError {α : Type} (r : Except String α) : Option String :=
  match r with
  | .ok _ => none
  | .error e => some e

/-- `sub` occurs inside `s` as a contiguous substring. -/
def containsStr (s sub : String) : Prop :=
  ∃ a b : String, s = a ++ sub ++ b

/-- The blocks one section loop contributes when every key it reads is
present (`getD` defaults are never reached then). -/
def sectionBlocksOk (ai : List (String × String)) (ss : List String) : List Block :=
  ss.flatMap (fun s =>
    [Block.heading s 1, Block.paragraph ((ai.lookup s).getD ""), Block.pageBreak])

/-- The first required key missing from `ai`, in lookup order. -/
def firstMissingKey (ai : List (String × String)) : Option String :=
  requiredSectionKeys.find? (fun s => (ai.lookup s).isNone)

/-- The full document of a successful `create_report` run. -/
def assembledBlocks (product today : String) (df : DataFrame) (charts : List String)
    (web_data : String) (ai_sections : List (String × String)) : List Block :=
  [Block.heading ("LCA Report for: " ++ product) 0,
   Block.paragraph ("Date: " ++ today),
   Block.paragraph "Confidential – For Internal Use Only",
   Block.pageBreak,
   Block.heading "Table of Contents" 1] ++
  tocEntries.map Block.paragraph ++
  [Block.pageBreak,
   Block.heading "Executive Summary" 1,
   Block.paragraph ((ai_sections.lookup "Executive Summary").getD ""), Block.pageBreak] ++
  sectionBlocksOk ai_sections firstSections ++
  [Block.heading "5. Web-Sourced Product Information" 1, Block.paragraph web_data,
   Block.pageBreak,
   Block.heading "6. Inventory Analysis" 1, Block.table (docTableOf df), Block.pageBreak,
   Block.heading "7. LCIA with Charts" 1] ++
  charts.flatMap (fun chart =>
    [Block.paragraph ("Figure: " ++ chartCaption chart), Block.picture chart]) ++
  [Block.pageBreak] ++
  sectionBlocksOk ai_sections lastSections ++
  [Block.heading "Appendix A: Glossary" 1, Block.paragraph glossaryText, Block.pageBreak,
   Block.heading "Appendix B: References" 1, Block.paragraph referencesText, Block.pageBreak]

/-- The Web Fetcher's output as §4.3 of the spec words it: the visible
text of at most the first five matches joined with single spaces, or the
fallback string naming the product if nothing matched or the joined
result is blank after trimming. -/
def scrapeExcerptSpec (product : String) (texts : List String) : String :=
  let joined := String.intercalate " " (texts.take 5)
  if texts = [] ∨ pyStrip joined = "" then "No public data found for " ++ product ++ "."
  else joined

/-- Low hex digit of a byte-sized value, uppercase. -/
def hexDigit (n : Nat) : Char :=
  if n < 10 then Char.ofNat (48 + n) else Char.ofNat (55 + n)

/-- Modelled from the spec: §6 says the search GET carries "the product
name URL-escaped into the query" — standard form URL-escaping of one
character (unreserved characters verbatim, space as `+`, anything else
percent-encoded), which the source never performs. -/
def urlEscapeChar (c : Char) : List Char :=
  if c = ' ' then ['+']
  else if c.isAlphanum || c = '-' || c = '_' || c = '.' || c = '~' then [c]
  else ['%', hexDigit (c.toNat / 16), hexDigit (c.toNat % 16)]

/-- Modelled from the spec: URL-escaping of a whole (ASCII) string. -/
def urlEscape (s : String) : String :=
  ⟨s.data.flatMap urlEscapeChar⟩

/-- Modelled from the spec: the search URL as §6 describes it, the
fixed template with the product name URL-escaped into the query. -/
def specSearchUrl (product : String) : String :=
  "https://www.google.com/search?q=" ++ urlEscape product ++ "+environmental+impact"

/-- A fixed sample Inventory Table: every unit sample `0`, so every
draw lands on its lower bound. -/
def dfZero : DataFrame := generate_lci_data (fun _ => 0)

/-- A narrative mapping with all eight required keys present. -/
def aiStub : List (String × String) :=
  requiredSectionKeys.map (fun s => (s, "text"))

/-- A narrative mapping missing exactly the `9. Limitations` key. -/
def aiMissingNine : List (String × String) :=
  (requiredSectionKeys.filter (fun s => s ≠ "9. Limitations")).map (fun s => (s, "text"))

set_option maxRecDepth 100000

/-- `random.uniform a b` stays inside the interval `a..b`. -/
theorem uniform_mem (a b v : ℚ) (hab : a ≤ b) (h0 : 0 ≤ v) (h1 : v ≤ 1) :
    a ≤ uniform a b v ∧ uniform a b v ≤ b := by
  unfold uniform
  constructor
  · nlinarith
  · nlinarith

/-- A uniform draw from `a..b` stays inside any enclosing `lo..hi`. -/
theorem uniform_mem_of (lo hi a b v : ℚ) (hlo : lo ≤ a) (hab : a ≤ b) (hhi : b ≤ hi)
    (h0 : 0 ≤ v) (h1 : v ≤ 1) :
    lo ≤ uniform a b v ∧ uniform a b v ≤ hi := by
  obtain ⟨h2, h3⟩ := uniform_mem a b v hab h0 h1
  exact ⟨le_trans hlo h2, le_trans h3 hhi⟩

/-- Claim C1: every invocation of the inventory generator yields a
table with exactly 4 rows (stages Materials, Manufacturing, Use Phase,
End-of-Life) and 3 numeric columns (Energy Use, GHG Emissions, Water
Use), and each cell's value lies within its column's fixed range. -/
theorem inventory_table_shape_and_ranges (u : Nat → ℚ)
    (hu : ∀ n, 0 ≤ u n ∧ u n ≤ 1) :
    (generate_lci_data u).nRows = 4 ∧
    ((generate_lci_data u).cols.map Prod.fst).head? = some "Life Cycle Stage" ∧
    (numericCols (generate_lci_data u)).map Prod.fst =
      ["Energy Use (MJ)", "GHG Emissions (kg CO2-eq)", "Water Use (L)"] ∧
    (numericCols (generate_lci_data u)).length = 3 ∧
    (∀ c ∈ (generate_lci_data u).cols, ∀ v ∈ c.2, ∀ q, v = CellVal.num q →
      (columnRange c.1).1 ≤ q ∧ q ≤ (columnRange c.1).2) := by
  refine ⟨rfl, rfl, rfl, rfl, ?_⟩
  intro c hc v hv q hq
  simp only [generate_lci_data, List.mem_cons, List.not_mem_nil, or_false] at hc
  rcases hc with rfl | rfl | rfl | rfl <;>
    simp only [List.mem_cons, List.not_mem_nil, or_false] at hv <;>
    rcases hv with rfl | rfl | rfl | rfl <;>
    cases hq
  · exact uniform_mem_of 10 120 80 120 _ (by norm_num) (by norm_num) (by norm_num)
      (hu 0).1 (hu 0).2
  · exact uniform_mem_of 10 120 50 100 _ (by norm_num) (by norm_num) (by norm_num)
      (hu 1).1 (hu 1).2
  · exact uniform_mem_of 10 120 10 20 _ (by norm_num) (by norm_num) (by norm_num)
      (hu 2).1 (hu 2).2
  · exact uniform_mem_of 10 120 15 30 _ (by norm_num) (by norm_num) (by norm_num)
      (hu 3).1 (hu 3).2
  · exact uniform_mem_of 1 12 5 10 _ (by norm_num) (by norm_num) (by norm_num)
      (hu 4).1 (hu 4).2
  · exact uniform_mem_of 1 12 8 12 _ (by norm_num) (by norm_num) (by norm_num)
      (hu 5).1 (hu 5).2
  · exact uniform_mem_of 1 12 1 3 _ (by norm_num) (by norm_num) (by norm_num)
      (hu 6).1 (hu 6).2
  · exact uniform_mem_of 1 12 2 4 _ (by norm_num) (by norm_num) (by norm_num)
      (hu 7).1 (hu 7).2
  · exact uniform_mem_of 1 40 20 40 _ (by norm_num) (by norm_num) (by norm_num)
      (hu 8).1 (hu 8).2
  · exact uniform_mem_of 1 40 10 30 _ (by norm_num) (by norm_num) (by norm_num)
      (hu 9).1 (hu 9).2
  · exact uniform_mem_of 1 40 1 5 _ (by norm_num) (by norm_num) (by norm_num)
      (hu 10).1 (hu 10).2
  · exact uniform_mem_of 1 40 5 15 _ (by norm_num) (by norm_num) (by norm_num)
      (hu 11).1 (hu 11).2

/-- A section loop either raises the `KeyError` of the first missing
key or yields its blocks with every text looked up. -/
theorem sectionBlocks_eq (ai : List (String × String)) (ss : List String) :
    sectionBlocks ai ss =
      match ss.find? (fun s => (ai.lookup s).isNone) with
      | some k => Except.error ("KeyError: " ++ k)
      | none => Except.ok (sectionBlocksOk ai ss) := by
  induction ss with
  | nil => simp [sectionBlocks, sectionBlocksOk]
  | cons s rest ih =>
      cases h : ai.lookup s with
      | none =>
          simp only [sectionBlocks, dictGet, h, List.find?, Option.isNone_none]
          rfl
      | some v =>
          rw [sectionBlocks]
          cases hfind : rest.find? (fun s => (ai.lookup s).isNone) with
          | some k =>
              simp only [dictGet, h, ih, hfind, List.find?, Option.isNone_some]
              rfl
          | none =>
              simp only [dictGet, h, ih, hfind, List.find?, Option.isNone_some,
                sectionBlocksOk, List.flatMap_cons]
              rfl

/-- `firstMissingKey` split along the three lookup stages of
`create_report`. -/
theorem firstMissingKey_eq (ai : List (String × String)) :
    firstMissingKey ai =
      if (ai.lookup "Executive Summary").isNone then some "Executive Summary"
      else
        match firstSections.find? (fun s => (ai.lookup s).isNone) with
        | some k => some k
        | none => lastSections.find? (fun s => (ai.lookup s).isNone) := by
  unfold firstMissingKey requiredSectionKeys
  cases h : (ai.lookup "Executive Summary").isNone with
  | true =>
      rw [List.cons_append,
        @List.find?_cons_of_pos _ (fun s => (ai.lookup s).isNone) "Executive Summary"
          (firstSections ++ lastSections) h]
      simp
  | false =>
      rw [List.cons_append,
        @List.find?_cons_of_neg _ (fun s => (ai.lookup s).isNone) "Executive Summary"
          (firstSections ++ lastSections) (by simp [h]), List.find?_append]
      simp only [h, Bool.false_eq_true, if_false]
      cases hf : firstSections.find? (fun s => (ai.lookup s).isNone) <;>
        simp [Option.or, hf]

/-- `create_report` either raises the `KeyError` of the first missing
required key or returns the assembled document and its file name. -/
theorem create_report_eq (p t : String) (df : DataFrame) (ch : List String)
    (w : String) (ai : List (String × String)) :
    create_report p t df ch w ai =
      match firstMissingKey ai with
      | some k => Except.error ("KeyError: " ++ k)
      | none => Except.ok (assembledBlocks p t df ch w ai, report_filename p) := by
  rw [create_report, firstMissingKey_eq, sectionBlocks_eq, sectionBlocks_eq]
  cases h1 : ai.lookup "Executive Summary" with
  | none =>
      simp only [dictGet, h1, Option.isNone_none, if_pos]
      rfl
  | some v =>
      simp only [dictGet, h1, Option.isNone_some, Bool.false_eq_true, if_false]
      cases hf1 : firstSections.find? (fun s => (ai.lookup s).isNone) with
      | some k =>
          simp only [hf1]
          rfl
      | none =>
          cases hf2 : lastSections.find? (fun s => (ai.lookup s).isNone) with
          | some k =>
              simp only [hf1, hf2]
              rfl
          | none =>
              simp only [hf1, hf2, assembledBlocks, h1]
              rfl

/-- Chart blocks contain no data table. -/
theorem tablesOf_chart_blocks (ch : List String) :
    tablesOf (ch.flatMap (fun chart =>
      [Block.paragraph ("Figure: " ++ chartCaption chart), Block.picture chart])) = [] := by
  induction ch with
  | nil => rfl
  | cons c rest ih =>
      simp only [List.flatMap_cons]
      simp [tablesOf, List.filterMap_append]
      simpa [tablesOf] using ih

/-- The assembled document contains exactly one data table: the
rendered Inventory Table. -/
theorem tablesOf_assembled (p t : String) (df : DataFrame) (ch : List String)
    (w : String) (ai : List (String × String)) :
    tablesOf (assembledBlocks p t df ch w ai) = [docTableOf df] := by
  have hch := tablesOf_chart_blocks ch
  simp only [tablesOf] at hch ⊢
  simp [assembledBlocks, List.filterMap_append, sectionBlocksOk, firstSections,
    lastSections, tocEntries, hch]

/-- Every DataFrame cell reappears in the document table one row down
(after the header), rendered by `renderCell`. -/
theorem doc_table_cell (df : DataFrame) (hwf : df.wfB = true) (i j : Nat) (v : CellVal)
    (hc : dfCell df i j = some v) :
    ((docTableOf df).get? (i + 1)).bind (fun row => row.get? j) = some (renderCell v) := by
  obtain ⟨c, hj, hi⟩ : ∃ c, df.cols.get? j = some c ∧ c.2.get? i = some v := by
    unfold dfCell at hc
    cases hjj : df.cols.get? j with
    | none => rw [hjj] at hc; simp at hc
    | some c =>
        rw [hjj] at hc
        exact ⟨c, rfl, hc⟩
  obtain ⟨hlt, -⟩ := List.get?_eq_some.mp hi
  have hcmem : c ∈ df.cols := List.get?_mem hj
  have hclen : c.2.length = df.nRows := by
    have hb := (List.all_eq_true.mp hwf) c hcmem
    simpa using hb
  have hi' : i < df.nRows := hclen ▸ hlt
  unfold docTableOf
  rw [List.get?_cons_succ, List.get?_map]
  unfold dfRows
  rw [List.get?_map, List.get?_range hi']
  simp only [Option.map_some', Option.some_bind]
  rw [List.get?_map]
  unfold DataFrame.rowAt
  rw [List.get?_map, hj]
  simp only [Option.map_some']
  rw [List.getD_eq_get?, hi]
  rfl

/-- Strings append on their character lists. -/
theorem string_data_append (s t : String) : (s ++ t).data = s.data ++ t.data := by
  cases s
  cases t
  rfl

/-- Claim C5: with no credential configured the narrative generator
returns the deterministic fallback string — independent of the
completion endpoint, with no request put on the network — and that
string contains both the section label and the product name. -/
theorem narrative_no_credential_fallback (api : ChatRequest → ApiResult)
    (prompt product : String) :
    generate_ai_section none api prompt product =
      ("[Fallback] This section would normally be generated using AI for: "
        ++ prompt ++ " on " ++ product ++ ".", []) ∧
    containsStr (generate_ai_section none api prompt product).1 prompt ∧
    containsStr (generate_ai_section none api prompt product).1 product := by
  refine ⟨rfl, ?_, ?_⟩
  · refine ⟨"[Fallback] This section would normally be generated using AI for: ",
      " on " ++ product ++ ".", ?_⟩
    simp [generate_ai_section, String.append_assoc]
  · exact ⟨"[Fallback] This section would normally be generated using AI for: "
      ++ prompt ++ " on ", ".", rfl⟩

/-- Claim C2: with a credential configured, an API-level failure of the
completion call (any `openai.OpenAIError`, the class covering every
API-level failure the client raises, quota and rate-limit errors
included) makes the narrative generator return the fallback string
embedding the section label and the stringified error.  The embedded
function is total into `String`: the `except` arm converts the error
instead of re-raising, so nothing escapes this boundary. -/
theorem narrative_api_failure_fallback (key : String) (api : ChatRequest → ApiResult)
    (prompt product e : String)
    (h : api (chatRequest prompt product) = ApiResult.apiError e) :
    generate_ai_section (some key) api prompt product =
      ("[Error or Quota Reached] " ++ prompt
        ++ " section fallback: AI generation failed due to: " ++ e,
       [chatRequest prompt product]) ∧
    containsStr (generate_ai_section (some key) api prompt product).1 prompt ∧
    containsStr (generate_ai_section (some key) api prompt product).1 e := by
  have hval : generate_ai_section (some key) api prompt product =
      ("[Error or Quota Reached] " ++ prompt
        ++ " section fallback: AI generation failed due to: " ++ e,
       [chatRequest prompt product]) := by
    simp [generate_ai_section, h]
  refine ⟨hval, ?_, ?_⟩
  · refine ⟨"[Error or Quota Reached] ",
      " section fallback: AI generation failed due to: " ++ e, ?_⟩
    rw [hval]
    simp [String.append_assoc]
  · refine ⟨"[Error or Quota Reached] " ++ prompt
      ++ " section fallback: AI generation failed due to: ", "", ?_⟩
    rw [hval]
    simp [String.append_assoc]

/-- Witness for C2: a quota error on the Executive Summary call for an
electric toothbrush yields the concrete fallback string. -/
theorem narrative_api_failure_fallback_witness :
    (generate_ai_section (some "sk-test")
        (fun _ => ApiResult.apiError "Rate limit reached") "Executive Summary"
        "Electric Toothbrush").1 =
      "[Error or Quota Reached] Executive Summary section fallback: AI generation failed due to: Rate limit reached" := by
  have h := (narrative_api_failure_fallback "sk-test"
    (fun _ => ApiResult.apiError "Rate limit reached") "Executive Summary"
    "Electric Toothbrush" "Rate limit reached" rfl).1
  rw [congrArg Prod.fst h]
  decide

/-- Claim C7: the web fetcher returns exactly the spec's excerpt: join
of at most the first five element texts, with the fallback string on no
matches or a blank join. -/
theorem web_excerpt_matches_spec (product : String) (texts : List String) :
    scrape_product_data product texts = scrapeExcerptSpec product texts := by
  unfold scrape_product_data scrapeExcerptSpec
  by_cases h : pyStrip (String.intercalate " " (texts.take 5)) = ""
  · simp [h]
  · have hne : texts ≠ [] := by
      intro h0
      subst h0
      exact h rfl
    simp [h, hne]

/-- Claim C8 counterexample: for the product name `a&b` the URL the
code sends differs from the URL-escaped one the claim describes — the
ampersand is passed through verbatim instead of becoming `%26`, so it
splits the query parameter. -/
theorem search_url_not_escaped_counterexample :
    scrapeUrl "a&b" ≠ specSearchUrl "a&b" ∧
    scrapeUrl "a&b" = "https://www.google.com/search?q=a&b+environmental+impact" ∧
    specSearchUrl "a&b" = "https://www.google.com/search?q=a%26b+environmental+impact" := by
  refine ⟨?_, ?_, ?_⟩ <;> decide

/-- Claim C8 amended: the outbound search URL is the fixed template
with the product name's spaces replaced by `+` and the fixed suffix
`+environmental+impact` — no other character is escaped, every
non-space character of the product appears verbatim — and the request
carries the fixed browser-identifying User-Agent header. -/
theorem search_request_amended (product : String) :
    scrapeUrl product =
      "https://www.google.com/search?q=" ++ pyReplaceChar product ' ' '+'
        ++ "+environmental+impact" ∧
    scrapeHeaders = [("User-Agent", "Mozilla/5.0")] ∧
    (∀ c, c ∈ product.data → c ≠ ' ' → c ∈ (scrapeUrl product).data) := by
  refine ⟨rfl, rfl, ?_⟩
  intro c hc hne
  have hdata : (scrapeUrl product).data =
      "https://www.google.com/search?q=".data
        ++ (replaceChars ' ' '+' product.data ++ "+environmental+impact".data) := by
    show (("https://www.google.com/search?q=" ++ scrapeQuery product)).data = _
    rw [string_data_append]
    show _ ++ (pyReplaceChar product ' ' '+' ++ "+environmental+impact").data = _
    rw [string_data_append]
    rfl
  rw [hdata]
  refine List.mem_append_right _ (List.mem_append_left _ ?_)
  exact List.mem_map.mpr ⟨c, hc, by simp [hne]⟩

/-- Witness for C8 (amended): the `T` of `Electric Toothbrush` lands
verbatim in the sent URL. -/
theorem search_request_amended_witness :
    'T' ∈ (scrapeUrl "Electric Toothbrush").data :=
  (search_request_amended "Electric Toothbrush").2.2 'T' (by decide) (by decide)

/-- Claim C3 counterexample: the chart renderer produces 3 chart
files, not the 4 the claim states — the table has only 3 numeric
columns (`df.columns[1:]`). -/
theorem chart_count_counterexample :
    (create_visuals (generate_lci_data (fun _ => 0))).length = 3 ∧
    (create_visuals (generate_lci_data (fun _ => 0))).length ≠ 4 := by
  refine ⟨?_, ?_⟩ <;> decide

/-- Claim C3 amended: for every generated Inventory Table the chart
renderer produces exactly 3 chart files, one per numeric column, in
column order, each named from the column label with spaces replaced by
underscores and a `.png` extension. -/
theorem chart_files_amended (u : Nat → ℚ) :
    create_visuals (generate_lci_data u) =
      ["Energy_Use_(MJ).png", "GHG_Emissions_(kg_CO2-eq).png", "Water_Use_(L).png"] ∧
    (create_visuals (generate_lci_data u)).length =
      (numericCols (generate_lci_data u)).length ∧
    create_visuals (generate_lci_data u) =
      (numericCols (generate_lci_data u)).map
        (fun c => pyReplaceChar c.1 ' ' '_' ++ ".png") :=
  ⟨rfl, rfl, rfl⟩

/-- Claim C10: the output filename transformation replaces exactly the
space characters of the product name with underscores inside the fixed
`LCA_Report_AI_<...>.docx` template; every non-space character — path
separators included — appears verbatim in the saved file path. -/
theorem filename_keeps_non_space_chars (product : String) :
    (report_filename product).data =
      "LCA_Report_AI_".data
        ++ product.data.map (fun c => if c = ' ' then '_' else c) ++ ".docx".data ∧
    (∀ c, c ∈ product.data → c ≠ ' ' → c ∈ (report_filename product).data) ∧
    report_filename "../escape dir/report" = "LCA_Report_AI_../escape_dir/report.docx" := by
  have hdata : (report_filename product).data =
      "LCA_Report_AI_".data ++ replaceChars ' ' '_' product.data ++ ".docx".data := by
    show (("LCA_Report_AI_" ++ pyReplaceChar product ' ' '_') ++ ".docx").data = _
    rw [string_data_append, string_data_append]
    rfl
  refine ⟨hdata, ?_, by decide⟩
  intro c hc hne
  rw [hdata]
  refine List.mem_append_left _ (List.mem_append_right _ ?_)
  exact List.mem_map.mpr ⟨c, hc, by simp [hne]⟩

/-- Witness for C10: the slash of a path-traversal product name lands
verbatim in the saved file path. -/
theorem filename_keeps_non_space_chars_witness :
    '/' ∈ (report_filename "../escape dir/report").data :=
  (filename_keeps_non_space_chars "../escape dir/report").2.1 '/' (by decide) (by decide)

/-- Witness for C1 at the constant unit sample `1/2`. -/
theorem inventory_table_shape_and_ranges_witness :
    (generate_lci_data (fun _ => 1 / 2)).nRows = 4 ∧
    ((generate_lci_data (fun _ => 1 / 2)).cols.map Prod.fst).head? = some "Life Cycle Stage" ∧
    (numericCols (generate_lci_data (fun _ => 1 / 2))).map Prod.fst =
      ["Energy Use (MJ)", "GHG Emissions (kg CO2-eq)", "Water Use (L)"] ∧
    (numericCols (generate_lci_data (fun _ => 1 / 2))).length = 3 ∧
    (∀ c ∈ (generate_lci_data (fun _ => 1 / 2)).cols, ∀ v ∈ c.2, ∀ q, v = CellVal.num q →
      (columnRange c.1).1 ≤ q ∧ q ≤ (columnRange c.1).2) :=
  inventory_table_shape_and_ranges (fun _ => 1 / 2) (fun _ => by norm_num)



/-- Claim C4: on any successful `create_report` run, every numeric cell
of the document's data table equals the corresponding Inventory Table
cell rounded to two decimals (row `i` of the DataFrame is row `i+1` of
the table, after the header row). -/
theorem report_table_round_trip (p t w : String) (df : DataFrame) (ch : List String)
    (ai : List (String × String)) (i j : Nat) (q : ℚ)
    (hwf : df.wfB = true)
    (hok : exceptOk (create_report p t df ch w ai) = true)
    (hc : dfCell df i j = some (CellVal.num q)) :
    tableCells (reportBlocks (create_report p t df ch w ai)) (i + 1) j =
      some (CellVal.num (round2 q)) := by
  rw [create_report_eq] at hok ⊢
  cases hfm : firstMissingKey ai with
  | some k =>
      rw [hfm] at hok
      simp [exceptOk] at hok
  | none =>
      show tableCells (reportBlocks
        (Except.ok (assembledBlocks p t df ch w ai, report_filename p))) (i + 1) j = _
      unfold tableCells reportBlocks
      rw [tablesOf_assembled]
      simp only [List.head?, Option.some_bind]
      exact doc_table_cell df hwf i j _ hc

/-- Witness for C4: with all-zero samples the Materials Energy Use cell
is `80`, and the saved table renders `round2 80` at row 1, column 1. -/
theorem report_table_round_trip_witness :
    tableCells (reportBlocks (create_report "Electric Toothbrush" "2026-10-12"
        dfZero [] "No public data found for Electric Toothbrush." aiStub)) 1 1 =
      some (CellVal.num (round2 80)) :=
  report_table_round_trip "Electric Toothbrush" "2026-10-12"
    "No public data found for Electric Toothbrush." dfZero [] aiStub 0 1 80
    (by decide) (by decide) (by with_unfolding_all decide)

/-- Claim C6: invoked with a narrative mapping whose first missing
required key is `k`, the Document Assembler fails at exactly that
lookup, raising its `KeyError` — it never substitutes blank text and
produces no document. -/
theorem assembler_missing_key_fails (p t w : String) (df : DataFrame) (ch : List String)
    (ai : List (String × String)) (k : String)
    (hk : firstMissingKey ai = some k) :
    k ∈ requiredSectionKeys ∧ ai.lookup k = none ∧
    create_report p t df ch w ai = Except.error ("KeyError: " ++ k) := by
  refine ⟨List.mem_of_find?_eq_some hk, ?_, ?_⟩
  · have hp := List.find?_some hk
    simpa [Option.isNone_iff_eq_none] using hp
  · rw [create_report_eq, hk]

/-- Witness for C6: dropping only the `9. Limitations` key makes
`create_report` raise `KeyError: 9. Limitations`. -/
theorem assembler_missing_key_fails_witness :
    "9. Limitations" ∈ requiredSectionKeys ∧
    aiMissingNine.lookup "9. Limitations" = none ∧
    create_report "Electric Toothbrush" "2026-10-12" dfZero [] "w" aiMissingNine =
      Except.error ("KeyError: " ++ "9. Limitations") :=
  assembler_missing_key_fails "Electric Toothbrush" "2026-10-12" "w" dfZero []
    aiMissingNine "9. Limitations" (by decide)

/-- Claim C9: the eight keys the Presentation Shell populates are
exactly the eight keys the Document Assembler looks up (even in the
same order), so in the end-to-end pipeline no required key is ever
missing and the assembler's missing-key failure path is unreachable. -/
theorem pipeline_sections_cover_assembler (client : Option String)
    (api : ChatRequest → ApiResult) (product t w : String) (df : DataFrame)
    (ch : List String) :
    shellSectionKeys = requiredSectionKeys ∧
    firstMissingKey (pipelineSections client api product) = none ∧
    exceptOk (create_report product t df ch w (pipelineSections client api product)) = true := by
  have hnone : firstMissingKey (pipelineSections client api product) = none := rfl
  refine ⟨rfl, hnone, ?_⟩
  rw [create_report_eq, hnone]
  rfl
